import Mathlib

/-!
Shallow embedding of `src/main.py` (RMAN fraud-detection service).

Conventions of the embedding:
* Monetary amounts (Python floats) are modelled as rationals `ℚ`.
* The MongoDB collections (`collection`, `blacklist_collection`,
  `users_collection`) and the module-level dict `last_known_location` are
  gathered into one explicit state record `DB`; each endpoint becomes a
  function `input → DB → (response × DB)`.
* `datetime.now()` is modelled by an explicit `now : Nat` argument.
* SHA-256 (`hashlib.sha256(...).hexdigest()`) is modelled as an abstract
  parameter `hash : String → String`; the code only ever compares
  `hash p == stored`, so every theorem is proved for an arbitrary `hash`.
* `geopy.distance.geodesic(a, b).km` is an external library call; it is
  modelled as an abstract distance parameter `dist : Coord → Coord → ℚ`.
* `send_sms_notification` only prints (best-effort notifier); it changes no
  state and no response, so it is omitted from the state transitions.
* An exception that escapes an endpoint (there is no try/except in
  `check_fraud`) is modelled as `Except.error`.
-/

namespace RMAN

/-- A geographic coordinate pair (latitude, longitude), from `location_lookup`. -/
structure Coord where
  lat : ℚ
  lon : ℚ
deriving DecidableEq, Repr

/-- The `location_lookup` dict of `main.py` (lines 38-43): static mapping from
location names to coordinates. -/
def location_lookup : List (String × Coord) :=
  [("Chennai", ⟨13.0827, 80.2707⟩),
   ("Mumbai", ⟨19.0760, 72.8777⟩),
   ("Delhi", ⟨28.6139, 77.2090⟩),
   ("Bangalore", ⟨12.9716, 77.5946⟩)]

/-- The `BLACKLISTED_IPS` set of `main.py` (lines 49-53). -/
def BLACKLISTED_IPS : List String :=
  ["203.0.113.5", "198.51.100.10", "45.33.32.156"]

/-- Pydantic model `Transaction` (lines 56-63). -/
structure Transaction where
  transaction_id : String
  timestamp : String
  amount : ℚ
  location : String
  card_type : String
  currency : String
  recipient_account : String
deriving DecidableEq, Repr

/-- Pydantic model `User` (lines 66-71): the signup request body. -/
structure User where
  name : String
  account : String
  phone : String
  password : String
  pin : String
deriving DecidableEq, Repr

/-- Pydantic model `LoginData` (lines 74-76). -/
structure LoginData where
  account : String
  password : String
deriving DecidableEq, Repr

/-- Pydantic model `PinVerification` (lines 79-82). -/
structure PinVerification where
  account : String
  pin : String
  transaction : Transaction
deriving DecidableEq, Repr

/-- A user document as stored in `users_collection` (lines 126-134):
`password` and `pin` hold hashes. -/
structure UserDoc where
  name : String
  account : String
  phone : String
  password : String
  pin : String
  created_at : Nat
  is_active : Bool
deriving DecidableEq, Repr

/-- A blacklist document as stored in `blacklist_collection` (lines 200-206). -/
structure BlacklistEntry where
  type : String
  value : String
  reason : List String
  timestamp : Nat
  blocked_by : String
deriving DecidableEq, Repr

/-- Result of `datetime.strptime(txn.timestamp, "%Y-%m-%d %H:%M:%S")`. -/
structure DateTime where
  year : Nat
  month : Nat
  day : Nat
  hour : Nat
  minute : Nat
  second : Nat
deriving DecidableEq, Repr

/-- A transaction document as stored in `collection` (lines 304-318), plus the
`verified_at` field that `verify_pin` may set later (line 220). -/
structure StoredTxn where
  transaction_id : String
  timestamp : DateTime
  amount : ℚ
  location : String
  card_type : String
  currency : String
  recipient_account : String
  client_ip : String
  is_fraud : Bool
  fraud_reason : List String
  status : String
  pin_verified : Bool
  created_at : Nat
  verified_at : Option Nat
deriving DecidableEq, Repr

/-- The mutable state of the service: the three MongoDB collections and the
module-level dict `last_known_location` (line 46). -/
structure DB where
  transactions : List StoredTxn
  blacklist : List BlacklistEntry
  users : List UserDoc
  last_known_location : List (String × String)
deriving DecidableEq, Repr

/-- The parts of the FastAPI `Request` the code reads: the
`x-forwarded-for` header (`none` when absent), `request.client.host`, and the
`authorization` header (lines 262, 265, 324). -/
structure Req where
  xff : Option String
  host : String
  authorization : String
deriving DecidableEq, Repr

/-- The `{"success": ..., "message": ...}` response shape shared by
`/signup`, `/login` and `/verify_pin` (extra payload keys such as `login`'s
`user` object are not modelled). -/
structure Envelope where
  success : Bool
  message : String
deriving DecidableEq, Repr

/-- The `{"fraud": ..., "reasons": ...}` response of `/check_fraud`
(line 335). -/
structure FraudResult where
  fraud : Bool
  reasons : List String
deriving DecidableEq, Repr

/-! ### Timestamp parsing

`check_fraud` starts with `datetime.strptime(txn.timestamp, "%Y-%m-%d %H:%M:%S")`
(line 270). `strptime` is standard-library code, modelled here for the common
case: a 4-digit year, 1-2 digit month/day/hour/minute/second fields separated
by `-`, one space, and `:`, with CPython's range checks (month 1-12, day valid
for the month, hour ≤ 23, minute/second ≤ 59). strptime's tolerance for
repeated whitespace between date and time is not modelled; no claim depends
on it. A malformed string makes the real call raise `ValueError`. -/

/-- Split a character list on a separator character. -/
def splitOnChar (c : Char) : List Char → List (List Char)
  | [] => [[]]
  | x :: xs =>
    let r := splitOnChar c xs
    if x == c then [] :: r
    else
      match r with
      | [] => [[x]]
      | y :: ys => (x :: y) :: ys

/-- Value of a list of decimal digit characters. -/
def digitsToNat (l : List Char) : Nat :=
  l.foldl (fun acc c => acc * 10 + (c.toNat - 48)) 0

/-- A field of at most `maxLen` decimal digits (and at least one). -/
def parseField (l : List Char) (maxLen : Nat) : Option Nat :=
  if l ≠ [] ∧ l.all Char.isDigit ∧ l.length ≤ maxLen then some (digitsToNat l)
  else none

/-- Number of days in a month, with the Gregorian leap-year rule (CPython's
`datetime` validation of the day field). -/
def daysInMonth (year month : Nat) : Nat :=
  if month = 2 then
    if year % 4 = 0 ∧ (year % 100 ≠ 0 ∨ year % 400 = 0) then 29 else 28
  else if month = 4 ∨ month = 6 ∨ month = 9 ∨ month = 11 then 30
  else 31

/-- Model of `datetime.strptime(s, "%Y-%m-%d %H:%M:%S")`: `none` when the
real call raises `ValueError`. -/
def parseTimestamp (s : String) : Option DateTime :=
  match splitOnChar ' ' s.toList with
  | [datePart, timePart] =>
    match splitOnChar '-' datePart, splitOnChar ':' timePart with
    | [y, m, d], [h, mi, sec] =>
      match parseField y 4, parseField m 2, parseField d 2,
            parseField h 2, parseField mi 2, parseField sec 2 with
      | some yv, some mv, some dv, some hv, some miv, some sv =>
        if y.length = 4 ∧ 1 ≤ mv ∧ mv ≤ 12 ∧ 1 ≤ dv ∧ dv ≤ daysInMonth yv mv ∧
           hv ≤ 23 ∧ miv ≤ 59 ∧ sv ≤ 59
        then some ⟨yv, mv, dv, hv, miv, sv⟩
        else none
      | _, _, _, _, _, _ => none
    | _, _ => none
  | _ => none

example : parseTimestamp "2025-08-07 16:55:00" =
    some ⟨2025, 8, 7, 16, 55, 0⟩ := by decide

example : parseTimestamp "garbage" = none := by decide

example : parseTimestamp "2025-02-30 10:00:00" = none := by decide

/-! ### Small helpers shared by the endpoint models -/

/-- Model of `hash_password` (lines 85-87): SHA-256 is the abstract parameter `hash`. -/
def hash_password (hash : String → String) (password : String) : String :=
  hash password

/-- Model of `verify_password` (lines 90-92): re-hash and compare with the stored hash. -/
def verify_password (hash : String → String) (password hashed : String) : Bool :=
  hash_password hash password == hashed

/-- Model of Mongo's `update_one(filter, {"$set": fields})`: update the first
matching document, if any (`update_one` updates at most one document and its
result is not checked by the code). -/
def updateFirst (p : α → Bool) (f : α → α) : List α → List α
  | [] => []
  | x :: xs => if p x then f x :: xs else x :: updateFirst p f xs

/-- Python dict assignment `d[k] = v`: overwrite the binding if the key is
present, else add it. -/
def dictInsert (k v : String) : List (String × String) → List (String × String)
  | [] => [(k, v)]
  | (k0, v0) :: rest =>
    if k0 == k then (k0, v) :: rest else (k0, v0) :: dictInsert k v rest

/-- Test `blacklist_collection.find_one({"type": "account", "value": v})` is
non-null (lines 199 and 282). -/
def hasAccountEntry (bl : List BlacklistEntry) (v : String) : Bool :=
  (bl.find? fun e => e.type == "account" && e.value == v).isSome

/-- The blacklist documents stored for the pair `(type, value)`. -/
def entriesFor (bl : List BlacklistEntry) (t v : String) : List BlacklistEntry :=
  bl.filter fun e => e.type == t && e.value == v

/-- Sort key for a parsed timestamp: chronological order (every field is
within its multiplier, so the key is monotone in the calendar order Mongo
sorts datetimes by). -/
def DateTime.key (d : DateTime) : Nat :=
  ((((d.year * 13 + d.month) * 32 + d.day) * 24 + d.hour) * 60 + d.minute) * 60
    + d.second

/-- One step of a stable insertion sort on the stored-timestamp key. -/
def insertByTime (x : StoredTxn) : List StoredTxn → List StoredTxn
  | [] => [x]
  | y :: ys =>
    if x.timestamp.key ≤ y.timestamp.key then x :: y :: ys
    else y :: insertByTime x ys

/-- Model of `collection.find({"card_type": ...}).sort("timestamp", 1)`
(line 287): the matching documents in ascending timestamp order (stable). -/
def sortByTimestamp (l : List StoredTxn) : List StoredTxn :=
  l.foldr insertByTime []

/-! ### The detectors and `get_client_ip` -/

/-- The slice `[txn["amount"] for txn in past_txns][-window_size:]` of
line 237: the most recent `window_size` amounts (fewer when the history is
short). -/
def windowedAmounts (past_txns : List StoredTxn) (window_size : Nat) : List ℚ :=
  let allAmounts := past_txns.map (·.amount)
  allAmounts.drop (allAmounts.length - window_size)

/-- Model of `detect_behavioral_anomaly` (lines 236-243). `np.mean` and `np.std`
(population standard deviation) are taken over the last `window_size`
amounts. The code computes `z = |amount - mean| / std` when `std != 0`
(else `z = 0`) and returns `z > z_thresh`; because `std = sqrt var ≥ 0` and
the threshold is positive, `z > z_thresh` holds exactly when
`(amount - mean)^2 / var > z_thresh^2`, which is the square-free encoding
used here so the function stays within `ℚ`. -/
def detect_behavioral_anomaly (past_txns : List StoredTxn) (current_amount : ℚ)
    (window_size : Nat) (z_thresh : ℚ) : Bool :=
  let amounts := windowedAmounts past_txns window_size
  if amounts.length < 2 then false
  else
    let n : ℚ := amounts.length
    let mean := amounts.sum / n
    let var := (amounts.map fun a => (a - mean) ^ 2).sum / n
    let zsq := if var ≠ 0 then (current_amount - mean) ^ 2 / var else 0
    decide (zsq > z_thresh ^ 2)

/-- Model of `detect_geo_drift` (lines 246-258). `geodesic(...).km` is the abstract
parameter `dist`. Python's `if not last_location` also treats the empty
string as missing; `""` is not a key of `location_lookup`, so the lookup
below subsumes that case. -/
def detect_geo_drift (dist : Coord → Coord → ℚ) (lkl : List (String × String))
    (card_type current_location : String) (max_km : ℚ) : Bool :=
  match location_lookup.lookup current_location with
  | none => false
  | some current_coords =>
    match lkl.lookup card_type with
    | none => false
    | some last_location =>
      match location_lookup.lookup last_location with
      | none => false
      | some last_coords => decide (dist last_coords current_coords > max_km)

/-- Python's `str.strip()` on a character list: drop leading and trailing
whitespace. -/
def stripChars (l : List Char) : List Char :=
  ((l.dropWhile Char.isWhitespace).reverse.dropWhile Char.isWhitespace).reverse

/-- Model of `get_client_ip` (lines 261-265), returning `forwarded.split(",")[0].strip()`
when the header is truthy: Python's `if forwarded:` is false for both a
missing header and an empty one. -/
def get_client_ip (xff : Option String) (host : String) : String :=
  match xff with
  | some forwarded =>
    if forwarded == "" then host
    else ⟨stripChars ((splitOnChar ',' forwarded.data).headD [])⟩
  | none => host

example : get_client_ip (some "10.0.0.1, 10.0.0.2") "9.9.9.9" = "10.0.0.1" := by
  decide

/-! ### Endpoints -/

/-- Endpoint `/signup` (lines 108-148). Storage is assumed reliable, so the
`result.inserted_id` failure branch (line 144) and the catch-all (line 146)
cannot fire in the model. Python's `user.pin.isdigit()` is false for the
empty string, but the length-4 check already rejects it, so `List.all`
over the characters is equivalent here. -/
def signup (hash : String → String) (user : User) (db : DB) (now : Nat) :
    Envelope × DB :=
  if (db.users.find? fun u => u.account == user.account).isSome then
    (⟨false, "Account already exists"⟩, db)
  else if ¬ (user.pin.data.all Char.isDigit ∧ user.pin.length = 4) then
    (⟨false, "PIN must be exactly 4 digits"⟩, db)
  else
    let doc : UserDoc :=
      ⟨user.name, user.account, user.phone, hash_password hash user.password,
       hash_password hash user.pin, now, true⟩
    (⟨true, "Account created successfully"⟩, {db with users := db.users ++ [doc]})

/-- Endpoint `/login` (lines 151-180). The success payload's `user` object is not
modelled, only the envelope. No state is mutated. -/
def login (hash : String → String) (login_data : LoginData) (db : DB) :
    Envelope × DB :=
  match db.users.find? fun u => u.account == login_data.account with
  | none => (⟨false, "Account not found"⟩, db)
  | some user =>
    if ¬ verify_password hash login_data.password user.password then
      (⟨false, "Invalid password"⟩, db)
    else if ¬ user.is_active then
      (⟨false, "Account is deactivated"⟩, db)
    else
      (⟨true, "Login successful"⟩, db)

/-- The `$set` document of `verify_pin`'s approval update (line 220). -/
def approveTxn (now : Nat) (t : StoredTxn) : StoredTxn :=
  {t with pin_verified := true, status := "approved", verified_at := some now}

/-- Endpoint `/verify_pin` (lines 183-233). On PIN failure the recipient account is
inserted into the blacklist only when `find_one` returns nothing for it
(lines 199-206); on success `update_one` approves the first stored
transaction with the submitted id, if any (lines 218-221). SMS sending
(lines 209-212, 224-227) only prints. -/
def verify_pin (hash : String → String) (pin_data : PinVerification) (db : DB)
    (now : Nat) : Envelope × DB :=
  match db.users.find? fun u => u.account == pin_data.account with
  | none => (⟨false, "User not found"⟩, db)
  | some user =>
    if ¬ verify_password hash pin_data.pin user.pin then
      let recipient_account := pin_data.transaction.recipient_account
      let db' :=
        if hasAccountEntry db.blacklist recipient_account then db
        else
          {db with blacklist := db.blacklist ++
            [⟨"account", recipient_account,
              ["Invalid PIN verification - potential fraud"], now,
              pin_data.account⟩]}
      (⟨false, "Invalid PIN. Transaction blocked and recipient blacklisted."⟩, db')
    else
      let txns :=
        updateFirst
          (fun t => t.transaction_id == pin_data.transaction.transaction_id)
          (approveTxn now) db.transactions
      let db' := {db with transactions := txns}
      (⟨true, "PIN verified successfully. Transaction approved."⟩, db')

/-! ### `/check_fraud`

The four fraud signals (lines 277, 282, 290, 295) are factored into named
functions used verbatim by `check_fraud_core`, so the aggregation logic of
the endpoint is stated over exactly the signals the code computes. -/

/-- Line 277: `client_ip in BLACKLISTED_IPS`. -/
def ip_signal (req : Req) : Bool :=
  BLACKLISTED_IPS.contains (get_client_ip req.xff req.host)

/-- Line 282: the recipient account has a blacklist document. -/
def recipient_signal (db : DB) (txn : Transaction) : Bool :=
  hasAccountEntry db.blacklist txn.recipient_account

/-- Line 287: the past transactions for the card, sorted by timestamp. -/
def pastTxns (db : DB) (card_type : String) : List StoredTxn :=
  sortByTimestamp (db.transactions.filter fun t => t.card_type == card_type)

/-- Line 290: `detect_behavioral_anomaly(past_txns, txn.amount)` with the
default `window_size=5`, `z_thresh=2.5`. -/
def behavioral_signal (db : DB) (txn : Transaction) : Bool :=
  detect_behavioral_anomaly (pastTxns db txn.card_type) txn.amount 5 2.5

/-- Line 295: `detect_geo_drift(txn.card_type, txn.location)` with the
default `max_km=500`. -/
def geo_signal (dist : Coord → Coord → ℚ) (db : DB) (txn : Transaction) : Bool :=
  detect_geo_drift dist db.last_known_location txn.card_type txn.location 500

/-- The accumulated `is_fraud` flag of lines 272-297: the code starts at
`False` and sets it to `True` at each firing signal, i.e. the disjunction of
the four signals. -/
def fraudVerdict (dist : Coord → Coord → ℚ) (db : DB) (txn : Transaction)
    (req : Req) : Bool :=
  ip_signal req || recipient_signal db txn || behavioral_signal db txn ||
    geo_signal dist db txn

/-- The accumulated `reasons` list of lines 271-297: one reason appended per
firing signal, in the fixed evaluation order, i.e. the concatenation of
conditional singletons. -/
def fraudReasons (dist : Coord → Coord → ℚ) (db : DB) (txn : Transaction)
    (req : Req) : List String :=
  (if ip_signal req then
    ["Blacklisted IP Address: " ++ get_client_ip req.xff req.host] else []) ++
  (if recipient_signal db txn then
    ["Blacklisted Recipient Account: " ++ txn.recipient_account] else []) ++
  (if behavioral_signal db txn then ["Abnormal Amount (Behavioral)"] else []) ++
  (if geo_signal dist db txn then ["Geo Drift Detected"] else [])

/-- The `transaction_doc` persisted at lines 304-320. -/
def storedDoc (dist : Coord → Coord → ℚ) (txn : Transaction) (req : Req)
    (db : DB) (now : Nat) (ts : DateTime) : StoredTxn :=
  let is_fraud := fraudVerdict dist db txn req
  ⟨txn.transaction_id, ts, txn.amount, txn.location, txn.card_type,
   txn.currency, txn.recipient_account, get_client_ip req.xff req.host,
   is_fraud, fraudReasons dist db txn req,
   (if is_fraud then "pending" else "approved"),
   (if is_fraud then false else true), now, none⟩

/-- Body of `/check_fraud` after the timestamp has parsed (lines 271-335):
compute the verdict and reasons, update `last_known_location` only when the
verdict is not fraud (lines 300-301), and append the transaction document
(line 320). The fraud-alert SMS block (lines 323-333) reads
`users_collection` but changes no state and not the response, so it is
omitted. -/
def check_fraud_core (dist : Coord → Coord → ℚ) (txn : Transaction) (req : Req)
    (db : DB) (now : Nat) (ts : DateTime) : FraudResult × DB :=
  let is_fraud := fraudVerdict dist db txn req
  let lkl :=
    if is_fraud then db.last_known_location
    else dictInsert txn.card_type txn.location db.last_known_location
  (⟨is_fraud, fraudReasons dist db txn req⟩,
   {db with transactions := db.transactions ++ [storedDoc dist txn req db now ts],
            last_known_location := lkl})

/-- Endpoint `/check_fraud` (lines 268-335). The endpoint has no try/except: a
timestamp that `strptime` rejects raises `ValueError` out of the handler,
modelled as `Except.error` carrying the exception message. -/
def check_fraud (dist : Coord → Coord → ℚ) (txn : Transaction) (req : Req)
    (db : DB) (now : Nat) : Except String (FraudResult × DB) :=
  match parseTimestamp txn.timestamp with
  | none => .error ("ValueError: time data " ++ txn.timestamp ++
      " does not match format %Y-%m-%d %H:%M:%S")
  | some ts => .ok (check_fraud_core dist txn req db now ts)

/-! ### Concrete data for witnesses and counterexamples -/

/-- A concrete stand-in for the abstract SHA-256 parameter: with `hashId`,
stored `password`/`pin` fields hold the clear value. -/
def hashId : String → String := id

/-- A concrete stand-in for the abstract geodesic-distance parameter. -/
def dist0 : Coord → Coord → ℚ := fun _ _ => 0

/-- A stored user document (under `hashId`, the PIN is `"1234"`). -/
def aliceDoc : UserDoc := ⟨"Alice", "alice", "555-0100", "pw", "1234", 0, true⟩

/-- A well-formed incoming transaction from alice's card to `bob`. -/
def txn1 : Transaction :=
  ⟨"T1", "2025-08-07 16:55:00", 100, "Chennai", "visa", "INR", "bob"⟩

/-- A transaction whose timestamp `strptime` rejects. -/
def txnBad : Transaction :=
  ⟨"T2", "not a timestamp", 100, "Chennai", "visa", "INR", "bob"⟩

/-- A request with no `x-forwarded-for` header. -/
def reqPlain : Req := ⟨none, "1.2.3.4", ""⟩

/-- The empty database. -/
def emptyDB : DB := ⟨[], [], [], []⟩

/-- A database holding only alice's user document. -/
def dbAlice : DB := ⟨[], [], [aliceDoc], []⟩

/-- A database where `bob` is already blacklisted, blocked by `mallory`. -/
def dbBobListed : DB :=
  ⟨[], [⟨"account", "bob", ["Invalid PIN verification - potential fraud"], 0,
     "mallory"⟩], [aliceDoc], []⟩

/-- A stored (already scored, approved) transaction with amount `a`. -/
def stx (a : ℚ) : StoredTxn :=
  ⟨"P", ⟨2025, 1, 1, 0, 0, 0⟩, a, "Chennai", "visa", "INR", "shop",
   "1.2.3.4", false, [], "approved", true, 0, none⟩

/-- Six stored transactions whose five most recent amounts are all 50. -/
def past5 : List StoredTxn :=
  [stx 100, stx 50, stx 50, stx 50, stx 50, stx 50]

/-- A failed-PIN challenge from alice naming `bob` as recipient. -/
def pdWrong : PinVerification := ⟨"alice", "0000", txn1⟩

/-- A correct-PIN challenge from alice (PIN matches `aliceDoc` under
`hashId`). -/
def pdRight : PinVerification := ⟨"alice", "1234", txn1⟩

example :
    (check_fraud dist0 txn1 reqPlain emptyDB 3).map (fun r => r.1) =
      .ok ⟨false, []⟩ := by rfl

example :
    (verify_pin hashId pdWrong dbAlice 5).1 =
      ⟨false, "Invalid PIN. Transaction blocked and recipient blacklisted."⟩ := by
  decide

example :
    (verify_pin hashId pdRight dbAlice 5).1 =
      ⟨true, "PIN verified successfully. Transaction approved."⟩ := by decide

/-! ### Helper lemmas -/

/-- Summing a list all of whose members equal `c` gives `length * c`. -/
theorem sum_of_all_eq {l : List ℚ} {c : ℚ} (h : ∀ a ∈ l, a = c) :
    l.sum = l.length * c := by
  induction l with
  | nil => simp
  | cons x xs ih =>
    have hx : x = c := h x (List.mem_cons_self x xs)
    have hxs : ∀ a ∈ xs, a = c := fun a ha => h a (List.mem_cons_of_mem x ha)
    rw [List.sum_cons, ih hxs, hx, List.length_cons]
    push_cast
    ring

/-- Applying `update_one` with a filter matching no document changes nothing. -/
theorem updateFirst_of_none {α : Type} {p : α → Bool} {f : α → α} {l : List α}
    (h : ∀ x ∈ l, p x = false) : updateFirst p f l = l := by
  induction l with
  | nil => rfl
  | cons x xs ih =>
    have hx := h x (List.mem_cons_self x xs)
    have hxs : ∀ a ∈ xs, p a = false := fun a ha => h a (List.mem_cons_of_mem x ha)
    simp [updateFirst, hx, ih hxs]

/-- The store misses the `("account", v)` pair exactly when no document for
it is stored. -/
theorem hasAccountEntry_false_iff {bl : List BlacklistEntry} {v : String} :
    hasAccountEntry bl v = false ↔ entriesFor bl "account" v = [] := by
  induction bl with
  | nil => simp [hasAccountEntry, entriesFor]
  | cons e rest ih =>
    by_cases hp : (e.type == "account" && e.value == v) = true
    · simp [hasAccountEntry, entriesFor, List.find?_cons_of_pos, hp,
        List.filter_cons_of_pos]
    · simp only [Bool.not_eq_true] at hp
      simp only [hasAccountEntry, entriesFor] at ih ⊢
      rw [List.find?_cons_of_neg _ (by simp [hp]),
        List.filter_cons_of_neg (by simp [hp])]
      exact ih

/-- Appending a matching entry makes the store contain the pair. -/
theorem hasAccountEntry_append_self (bl : List BlacklistEntry) (v : String)
    (e : BlacklistEntry) (ht : e.type = "account") (hv : e.value = v) :
    hasAccountEntry (bl ++ [e]) v = true := by
  simp only [hasAccountEntry, List.find?_isSome]
  exact ⟨e, by simp, by simp [ht, hv]⟩

/-! ### The claims -/

/-- C5: for every instrument history containing fewer than 2 prior amounts
and for every candidate amount (and any window size and threshold), the
Behavioral Anomaly Detector reports not anomalous. -/
theorem C5_short_history_not_anomalous (past : List StoredTxn) (current : ℚ)
    (window_size : Nat) (z_thresh : ℚ) (h : past.length < 2) :
    detect_behavioral_anomaly past current window_size z_thresh = false := by
  have hlen : (windowedAmounts past window_size).length < 2 := by
    simp only [windowedAmounts, List.length_drop, List.length_map]
    omega
  simp [detect_behavioral_anomaly, hlen]

theorem C5_witness :
    ([] : List StoredTxn).length < 2 ∧
      detect_behavioral_anomaly [] 1000000 5 2.5 = false :=
  ⟨by decide, C5_short_history_not_anomalous [] 1000000 5 2.5 (by decide)⟩

/-- C4: for every history whose windowed amounts (the most recent 5) are all
identical, and for every candidate amount, the Behavioral Anomaly Detector
reports not anomalous, because the zero standard deviation forces the
z-score to 0. -/
theorem C4_zero_variance_not_anomalous (past : List StoredTxn) (current : ℚ)
    (h : ∀ a ∈ windowedAmounts past 5, ∀ b ∈ windowedAmounts past 5, a = b) :
    detect_behavioral_anomaly past current 5 2.5 = false := by
  by_cases hlen : (windowedAmounts past 5).length < 2
  · simp [detect_behavioral_anomaly, hlen]
  · set l := windowedAmounts past 5 with hl
    have hne : l ≠ [] := by
      intro h0
      rw [h0] at hlen
      simp at hlen
    obtain ⟨c, cs, hcons⟩ := List.exists_cons_of_ne_nil hne
    have hall : ∀ a ∈ l, a = c := fun a ha =>
      h a ha c (hcons ▸ List.mem_cons_self c cs)
    have hn : (l.length : ℚ) ≠ 0 := by
      have : l.length ≠ 0 := by
        rw [hcons]
        simp
      exact_mod_cast this
    have hmean : l.sum / (l.length : ℚ) = c := by
      rw [sum_of_all_eq hall]
      field_simp
    have hvar0 : (l.map fun a => (a - c) ^ 2).sum = 0 := by
      have hz : ∀ b ∈ (l.map fun a => (a - c) ^ 2), b = 0 := by
        intro b hb
        obtain ⟨a, ha, rfl⟩ := List.mem_map.mp hb
        rw [hall a ha]
        ring
      simpa using sum_of_all_eq hz
    simp only [detect_behavioral_anomaly, ← hl, if_neg hlen, hmean, hvar0,
      zero_div]
    norm_num

theorem C4_witness :
    (∀ a ∈ windowedAmounts past5 5, ∀ b ∈ windowedAmounts past5 5, a = b) ∧
      detect_behavioral_anomaly past5 1000000 5 2.5 = false :=
  ⟨by decide, C4_zero_variance_not_anomalous past5 1000000 (by decide)⟩

/-- C6: the Geo Drift Detector reports not flagged when the candidate
location is not in the Geo Reference, when no last accepted location is
recorded for the instrument, or when the recorded last location is not in
the Geo Reference; otherwise it is flagged exactly when the distance between
the two resolved coordinate pairs exceeds 500 km (the external geodesic
computation is the abstract parameter `dist`). -/
theorem C6_geo_drift_guards (dist : Coord → Coord → ℚ)
    (lkl : List (String × String)) (card loc : String) :
    (location_lookup.lookup loc = none →
      detect_geo_drift dist lkl card loc 500 = false) ∧
    (lkl.lookup card = none →
      detect_geo_drift dist lkl card loc 500 = false) ∧
    (∀ last, lkl.lookup card = some last →
      location_lookup.lookup last = none →
      detect_geo_drift dist lkl card loc 500 = false) ∧
    (∀ cc last lc, location_lookup.lookup loc = some cc →
      lkl.lookup card = some last → location_lookup.lookup last = some lc →
      (detect_geo_drift dist lkl card loc 500 = true ↔ dist lc cc > 500)) := by
  refine ⟨?_, ?_, ?_, ?_⟩
  · intro h
    simp [detect_geo_drift, h]
  · intro h
    cases hc : location_lookup.lookup loc <;> simp [detect_geo_drift, hc, h]
  · intro last h1 h2
    cases hc : location_lookup.lookup loc <;>
      simp [detect_geo_drift, hc, h1, h2]
  · intro cc last lc h1 h2 h3
    simp [detect_geo_drift, h1, h2, h3]

theorem C6_witness :
    detect_geo_drift (fun _ _ => 600) [("visa", "Chennai")] "visa" "Mumbai" 500
      = true :=
  ((C6_geo_drift_guards (fun _ _ => 600) [("visa", "Chennai")] "visa"
      "Mumbai").2.2.2 ⟨19.0760, 72.8777⟩ "Chennai" ⟨13.0827, 80.2707⟩
      (by rfl) (by rfl) (by rfl)).mpr (by norm_num)

/-- C1: for every scored transaction, the verdict is fraud exactly when at
least one of the four signals (blacklisted originating address, blacklisted
recipient account, behavioral anomaly, geo drift) fires; the persisted
document carries the verdict, with status `"pending"` and PIN-verification
flag `false` when the verdict is fraud, and status `"approved"` and flag
`true` otherwise. -/
theorem C1_verdict_and_status (dist : Coord → Coord → ℚ) (txn : Transaction)
    (req : Req) (db : DB) (now : Nat)
    (h : (parseTimestamp txn.timestamp).isSome) :
    ∃ res db',
      check_fraud dist txn req db now = .ok (res, db') ∧
      (∃ doc, db'.transactions = db.transactions ++ [doc] ∧
        doc.is_fraud = res.fraud ∧
        (res.fraud = true → doc.status = "pending" ∧ doc.pin_verified = false) ∧
        (res.fraud = false → doc.status = "approved" ∧ doc.pin_verified = true)) ∧
      (res.fraud = true ↔
        ip_signal req = true ∨ recipient_signal db txn = true ∨
        behavioral_signal db txn = true ∨ geo_signal dist db txn = true) := by
  obtain ⟨ts, hts⟩ := Option.isSome_iff_exists.mp h
  refine ⟨⟨fraudVerdict dist db txn req, fraudReasons dist db txn req⟩,
    (check_fraud_core dist txn req db now ts).2, ?_, ?_, ?_⟩
  · unfold check_fraud
    rw [hts]
    rfl
  · refine ⟨storedDoc dist txn req db now ts, rfl, rfl, ?_, ?_⟩
    · intro hf
      have hf' : fraudVerdict dist db txn req = true := hf
      simp [storedDoc, hf']
    · intro hf
      have hf' : fraudVerdict dist db txn req = false := hf
      simp [storedDoc, hf']
  · simp [fraudVerdict, or_assoc]

theorem C1_witness :
    (parseTimestamp txn1.timestamp).isSome = true ∧
      (∃ res db',
        check_fraud dist0 txn1 reqPlain emptyDB 0 = .ok (res, db') ∧
        (∃ doc, db'.transactions = emptyDB.transactions ++ [doc] ∧
          doc.is_fraud = res.fraud ∧
          (res.fraud = true → doc.status = "pending" ∧ doc.pin_verified = false) ∧
          (res.fraud = false → doc.status = "approved" ∧ doc.pin_verified = true)) ∧
        (res.fraud = true ↔
          ip_signal reqPlain = true ∨ recipient_signal emptyDB txn1 = true ∨
          behavioral_signal emptyDB txn1 = true ∨
          geo_signal dist0 emptyDB txn1 = true)) :=
  ⟨by decide, C1_verdict_and_status dist0 txn1 reqPlain emptyDB 0 (by decide)⟩

/-- C7: scoring updates the Last-Known-Location entry for the transaction's
instrument exactly when the verdict is not fraud, and no other endpoint
(`/verify_pin`, `/signup`, `/login`) changes the mapping. -/
theorem C7_lkl_frame (dist : Coord → Coord → ℚ) (txn : Transaction) (req : Req)
    (db : DB) (now : Nat) (h : (parseTimestamp txn.timestamp).isSome) :
    (∃ res db', check_fraud dist txn req db now = .ok (res, db') ∧
      db'.last_known_location =
        (if res.fraud = true then db.last_known_location
         else dictInsert txn.card_type txn.location db.last_known_location)) ∧
    (∀ hash pd db2 n2,
      ((verify_pin hash pd db2 n2).2).last_known_location =
        db2.last_known_location) ∧
    (∀ hash u db2 n2,
      ((signup hash u db2 n2).2).last_known_location =
        db2.last_known_location) ∧
    (∀ hash ld db2,
      ((login hash ld db2).2).last_known_location = db2.last_known_location) := by
  obtain ⟨ts, hts⟩ := Option.isSome_iff_exists.mp h
  refine ⟨⟨(check_fraud_core dist txn req db now ts).1,
    (check_fraud_core dist txn req db now ts).2, ?_, rfl⟩, ?_, ?_, ?_⟩
  · unfold check_fraud
    rw [hts]
  · intro hash pd db2 n2
    unfold verify_pin
    cases db2.users.find? fun u => u.account == pd.account with
    | none => rfl
    | some user =>
      by_cases hv : verify_password hash pd.pin user.pin = true
      · simp only [hv]
        rfl
      · simp only [Bool.not_eq_true] at hv
        simp only [hv]
        by_cases hb : hasAccountEntry db2.blacklist
            pd.transaction.recipient_account = true
        · simp [hb]
        · simp only [Bool.not_eq_true] at hb
          simp [hb]
  · intro hash u db2 n2
    unfold signup
    split
    · rfl
    · split
      · rfl
      · rfl
  · intro hash ld db2
    unfold login
    cases db2.users.find? fun u => u.account == ld.account with
    | none => rfl
    | some user =>
      by_cases h1 : verify_password hash ld.password user.password = true <;>
        by_cases h2 : user.is_active = true <;> simp [h1, h2]

theorem C7_witness :
    ∃ res db', check_fraud dist0 txn1 reqPlain emptyDB 0 = .ok (res, db') ∧
      db'.last_known_location =
        (if res.fraud = true then emptyDB.last_known_location
         else dictInsert txn1.card_type txn1.location
           emptyDB.last_known_location) :=
  (C7_lkl_frame dist0 txn1 reqPlain emptyDB 0 (by decide)).1

/-- C10 (amended): the address tested against the static IP denylist and
persisted with the transaction is `get_client_ip`'s result, which is the
first comma-separated entry (stripped) of the caller-supplied
`x-forwarded-for` header when that header is present *and non-empty*, and
the socket peer address otherwise — Python's `if forwarded:` also falls back
to the socket address when the header is present but empty. -/
theorem C10_client_ip (dist : Coord → Coord → ℚ) (txn : Transaction)
    (req : Req) (db : DB) (now : Nat)
    (h : (parseTimestamp txn.timestamp).isSome) :
    (∃ res db', check_fraud dist txn req db now = .ok (res, db') ∧
      ∃ doc, db'.transactions = db.transactions ++ [doc] ∧
        doc.client_ip = get_client_ip req.xff req.host) ∧
    ip_signal req = BLACKLISTED_IPS.contains (get_client_ip req.xff req.host) ∧
    (∀ f, req.xff = some f → f ≠ "" →
      get_client_ip req.xff req.host =
        ⟨stripChars ((splitOnChar ',' f.data).headD [])⟩) ∧
    (req.xff = none → get_client_ip req.xff req.host = req.host) ∧
    (req.xff = some "" → get_client_ip req.xff req.host = req.host) := by
  obtain ⟨ts, hts⟩ := Option.isSome_iff_exists.mp h
  refine ⟨⟨(check_fraud_core dist txn req db now ts).1,
    (check_fraud_core dist txn req db now ts).2, ?_,
    storedDoc dist txn req db now ts, rfl, rfl⟩, rfl, ?_, ?_, ?_⟩
  · unfold check_fraud
    rw [hts]
  · intro f hf hne
    simp [get_client_ip, hf, hne]
  · intro hf
    simp [get_client_ip, hf]
  · intro hf
    simp [get_client_ip, hf]

theorem C10_witness :
    get_client_ip (some "10.0.0.1, 10.0.0.2") "9.9.9.9" = "10.0.0.1" :=
  ((C10_client_ip dist0 txn1 ⟨some "10.0.0.1, 10.0.0.2", "9.9.9.9", ""⟩
      emptyDB 0 (by decide)).2.2.1 "10.0.0.1, 10.0.0.2" rfl
      (by decide)).trans (by decide)

theorem C10_counterexample :
    get_client_ip (some "") "9.9.9.9" = "9.9.9.9" ∧
    (⟨stripChars ((splitOnChar ',' "".data).headD [])⟩ : String) = "" ∧
    ("9.9.9.9" : String) ≠ "" := by decide

/-- C8 (corrected): `/check_fraud` raises an unhandled exception exactly when
the timestamp does not parse (there is no try/except around the endpoint
body), while `/verify_pin`, `/signup` and `/login` always answer with one of
a fixed set of human-readable envelope messages. -/
theorem C8_error_envelope (dist : Coord → Coord → ℚ) (txn : Transaction)
    (req : Req) (db : DB) (now : Nat) :
    ((∃ e, check_fraud dist txn req db now = .error e) ↔
      parseTimestamp txn.timestamp = none) ∧
    (∀ hash pd db2 n2, (verify_pin hash pd db2 n2).1.message ∈
      ["User not found",
       "Invalid PIN. Transaction blocked and recipient blacklisted.",
       "PIN verified successfully. Transaction approved."]) ∧
    (∀ hash u db2 n2, (signup hash u db2 n2).1.message ∈
      ["Account already exists", "PIN must be exactly 4 digits",
       "Account created successfully"]) ∧
    (∀ hash ld db2, (login hash ld db2).1.message ∈
      ["Account not found", "Invalid password", "Account is deactivated",
       "Login successful"]) := by
  refine ⟨⟨?_, ?_⟩, ?_, ?_, ?_⟩
  · rintro ⟨e, he⟩
    cases hts : parseTimestamp txn.timestamp with
    | none => rfl
    | some ts =>
      unfold check_fraud at he
      rw [hts] at he
      exact absurd he (by simp)
  · intro hn
    refine ⟨"ValueError: time data " ++ txn.timestamp ++
      " does not match format %Y-%m-%d %H:%M:%S", ?_⟩
    unfold check_fraud
    rw [hn]
  · intro hash pd db2 n2
    unfold verify_pin
    cases db2.users.find? fun u => u.account == pd.account with
    | none => simp
    | some user =>
      by_cases hv : verify_password hash pd.pin user.pin = true <;> simp [hv]
  · intro hash u db2 n2
    unfold signup
    split
    · simp
    · split <;> simp
  · intro hash ld db2
    unfold login
    cases db2.users.find? fun u => u.account == ld.account with
    | none => simp
    | some user =>
      by_cases h1 : verify_password hash ld.password user.password = true <;>
        by_cases h2 : user.is_active = true <;> simp [h1, h2]

theorem C8_counterexample :
    check_fraud dist0 txnBad reqPlain emptyDB 0 =
      .error ("ValueError: time data not a timestamp does not match format " ++
        "%Y-%m-%d %H:%M:%S") := by rfl

/-- C3 (amended): on an existing account, a matching PIN approves the first
stored transaction with the submitted identifier (status `"approved"`,
PIN-verification flag true) and leaves the blacklist untouched; a
non-matching PIN leaves the transaction store unmodified and inserts the
blacklist entry for the recipient only when the recipient is not already
blacklisted — when an entry for the pair already exists, the store is left
unchanged (no entry naming the verifying account is added). -/
theorem C3_pin_outcomes (hash : String → String) (pd : PinVerification)
    (db : DB) (now : Nat) (u : UserDoc)
    (hu : db.users.find? (fun x => x.account == pd.account) = some u) :
    (verify_password hash pd.pin u.pin = true →
      verify_pin hash pd db now =
        (⟨true, "PIN verified successfully. Transaction approved."⟩,
         {db with transactions :=
           (updateFirst
             (fun t => t.transaction_id == pd.transaction.transaction_id)
             (approveTxn now) db.transactions)})) ∧
    (verify_password hash pd.pin u.pin = false →
      (verify_pin hash pd db now).1 =
        ⟨false, "Invalid PIN. Transaction blocked and recipient blacklisted."⟩ ∧
      (verify_pin hash pd db now).2.transactions = db.transactions ∧
      (hasAccountEntry db.blacklist pd.transaction.recipient_account = false →
        (verify_pin hash pd db now).2.blacklist = db.blacklist ++
          [⟨"account", pd.transaction.recipient_account,
            ["Invalid PIN verification - potential fraud"], now, pd.account⟩]) ∧
      (hasAccountEntry db.blacklist pd.transaction.recipient_account = true →
        (verify_pin hash pd db now).2.blacklist = db.blacklist)) := by
  constructor
  · intro hp
    unfold verify_pin
    rw [hu]
    simp [hp]
  · intro hp
    unfold verify_pin
    rw [hu]
    by_cases hb : hasAccountEntry db.blacklist pd.transaction.recipient_account
      = true
    · simp [hp, hb]
    · simp only [Bool.not_eq_true] at hb
      simp [hp, hb]

theorem C3_witness :
    verify_pin hashId pdRight dbAlice 5 =
      (⟨true, "PIN verified successfully. Transaction approved."⟩,
       {dbAlice with transactions :=
         (updateFirst
           (fun t => t.transaction_id == pdRight.transaction.transaction_id)
           (approveTxn 5) dbAlice.transactions)}) :=
  (C3_pin_outcomes hashId pdRight dbAlice 5 aliceDoc (by decide)).1 (by decide)

theorem C3_counterexample :
    (verify_pin hashId pdWrong dbBobListed 7).2 = dbBobListed ∧
    (∀ e ∈ (verify_pin hashId pdWrong dbBobListed 7).2.blacklist,
      e.blocked_by ≠ "alice") := by decide

/-- C2 (amended): starting from a store with no entry for the recipient, a
failed-PIN trigger inserts a single entry with the single reason
`"Invalid PIN verification - potential fraud"`, and a repeated trigger on
the same pair leaves that entry unchanged — after two triggers the store
holds exactly one entry for the pair, carrying the one original reason (the
code does not append a second reason). -/
theorem C2_blacklist_single_entry (hash : String → String)
    (pd : PinVerification) (db : DB) (n1 n2 : Nat) (u : UserDoc)
    (hu : db.users.find? (fun x => x.account == pd.account) = some u)
    (hp : verify_password hash pd.pin u.pin = false)
    (hb : entriesFor db.blacklist "account" pd.transaction.recipient_account
      = []) :
    entriesFor
      ((verify_pin hash pd ((verify_pin hash pd db n1).2) n2).2).blacklist
      "account" pd.transaction.recipient_account =
      [⟨"account", pd.transaction.recipient_account,
        ["Invalid PIN verification - potential fraud"], n1, pd.account⟩] := by
  have hb0 : hasAccountEntry db.blacklist pd.transaction.recipient_account
      = false := hasAccountEntry_false_iff.mpr hb
  have hfst : (verify_pin hash pd db n1).2 =
      {db with blacklist := db.blacklist ++
        [⟨"account", pd.transaction.recipient_account,
          ["Invalid PIN verification - potential fraud"], n1, pd.account⟩]} := by
    unfold verify_pin
    rw [hu]
    simp [hp, hb0]
  rw [hfst]
  have hb1 : hasAccountEntry (db.blacklist ++
      [⟨"account", pd.transaction.recipient_account,
        ["Invalid PIN verification - potential fraud"], n1, pd.account⟩])
      pd.transaction.recipient_account = true :=
    hasAccountEntry_append_self _ _ _ rfl rfl
  unfold verify_pin
  rw [hu]
  simp only [hp, Bool.false_eq_true, not_false_eq_true, if_pos, hb1, if_true]
  simp only [entriesFor] at hb ⊢
  rw [List.filter_append, hb]
  simp

theorem C2_witness :
    entriesFor
      ((verify_pin hashId pdWrong ((verify_pin hashId pdWrong dbAlice 1).2)
        2).2).blacklist "account" "bob" =
      [⟨"account", "bob", ["Invalid PIN verification - potential fraud"], 1,
        "alice"⟩] :=
  C2_blacklist_single_entry hashId pdWrong dbAlice 1 2 aliceDoc (by decide)
    (by decide) (by decide)

theorem C2_counterexample :
    (entriesFor
      ((verify_pin hashId pdWrong ((verify_pin hashId pdWrong dbAlice 1).2)
        2).2).blacklist "account" "bob").length = 1 ∧
    (∀ e ∈ entriesFor
      ((verify_pin hashId pdWrong ((verify_pin hashId pdWrong dbAlice 1).2)
        2).2).blacklist "account" "bob", e.reason.length ≠ 2) := by decide

/-- C9: when the account exists and the PIN matches, `/verify_pin` reports
success with message "PIN verified successfully. Transaction approved." even
when no stored transaction carries the submitted identifier: the approval
update matches zero documents, its result is not checked, and the state is
returned unchanged. -/
theorem C9_missing_txn_success (hash : String → String)
    (pd : PinVerification) (db : DB) (now : Nat) (u : UserDoc)
    (hu : db.users.find? (fun x => x.account == pd.account) = some u)
    (hp : verify_password hash pd.pin u.pin = true)
    (hno : ∀ t ∈ db.transactions,
      (t.transaction_id == pd.transaction.transaction_id) = false) :
    verify_pin hash pd db now =
      (⟨true, "PIN verified successfully. Transaction approved."⟩, db) := by
  unfold verify_pin
  rw [hu]
  simp [hp, updateFirst_of_none hno]

theorem C9_witness :
    verify_pin hashId pdRight dbAlice 5 =
      (⟨true, "PIN verified successfully. Transaction approved."⟩, dbAlice) :=
  C9_missing_txn_success hashId pdRight dbAlice 5 aliceDoc (by decide)
    (by decide) (by decide)

end RMAN
